import Mathlib

/-!
Verification of the Chatbot_AI repository's natural-language specification
against a shallow embedding of its Python sources.

Embedded code:
* `backend/app.py`   — `parse_api_error`, the `/query_llm` endpoint (`query_llm`)
  and its response model `LLMResponse`;
* `backend/rag_engine.py` — `process_and_add_files` (ingestion) and `query_rag`
  (retrieval).

External libraries (OpenAI/Gemini clients, Chroma, the langchain loaders and
text splitter, streamlit widgets) are modelled at their interface boundary:
adapter calls, similarity search, and per-file load results are parameters of
the embedded functions; wall-clock time (ETA seconds, `created_at` timestamps)
is not modelled — only the integer quantities entering the progress arithmetic
are.  Python strings are modelled as Lean `String`s with structurally recursive
versions of `str.lower`, `str.strip` and the `in` substring test so that every
definition evaluates inside the kernel.
-/

deriving instance DecidableEq for Except

/-- Python `str.lower()` on the character list of a string. -/
def str_lower (s : String) : String := ⟨s.data.map Char.toLower⟩

/-- Python `str.strip()`: remove leading and trailing whitespace. -/
def str_strip (s : String) : String :=
  ⟨((s.data.dropWhile Char.isWhitespace).reverse.dropWhile Char.isWhitespace).reverse⟩

/-- Python `pat in s` substring test. -/
def hasSubstr (s pat : String) : Bool :=
  (List.range (s.data.length + 1)).any (fun i => ((s.data.drop i).take pat.data.length) == pat.data)

/-! ## `backend/app.py` — error classification (`parse_api_error`, lines 44–53) -/

/-- Condition of the first branch of `parse_api_error`:
`"401" in err_msg or "invalid api key" in err_msg or "authentication" in err_msg`. -/
def mentionsAuth (err_msg : String) : Bool :=
  hasSubstr err_msg "401" || hasSubstr err_msg "invalid api key" || hasSubstr err_msg "authentication"

/-- Condition of the second branch of `parse_api_error`:
`"quota" in err_msg or "limit" in err_msg`. -/
def mentionsQuota (err_msg : String) : Bool :=
  hasSubstr err_msg "quota" || hasSubstr err_msg "limit"

/-- Embeds `parse_api_error(provider, error)` of `backend/app.py`; `error` is the
stringified exception (`str(error)`). -/
def parse_api_error (provider : String) (error : String) : String :=
  let err_msg := str_lower error
  if mentionsAuth err_msg then
    "❌ Invalid API key. Please check your " ++ provider ++ " API key."
  else if mentionsQuota err_msg then
    "⚠️ " ++ provider ++ " API quota exceeded. Please check your account limits."
  else
    "❌ " ++ provider ++ " API error: " ++ error

/-! ## `backend/app.py` — the `/query_llm` endpoint (lines 136–213)

The three provider adapters make network calls; they are modelled as one
parameter `adapter : String → String → Except String AdapterResult` mapping the
model name and the (possibly RAG-rewritten) prompt to either the adapter's
normalized `(text, ok, err)` triple or an uncaught exception (`Except.error`),
which the endpoint turns into the HTTP-500 path.  Likewise RAG retrieval is a
parameter `rag : String → String → Except String String` (store path and
question to context, or a raised exception).  Request fields that merely pass
through to the adapters (`system_message`, `chat_history`, `temperature`,
`max_tokens`) are omitted from the request model, as is the safety instruction
appended to the system message: none of them affect the control flow embedded
here. -/

/-- Request model of the endpoint (`LLMRequest`, fields used by the control flow). -/
structure LLMRequest where
  model_name : String
  api_key : String
  prompt : String
  use_rag : Bool
  db_path : Option String
deriving DecidableEq

/-- Response model of the endpoint (`LLMResponse` of `backend/app.py`). -/
structure LLMResponse where
  response : String
  success : Bool
  error_message : Option String
deriving DecidableEq

/-- Normalized adapter result: the `(text, ok, err)` triple every
`get_*_llm` helper returns. -/
structure AdapterResult where
  text : Option String
  ok : Bool
  err : Option String
deriving DecidableEq

/-- Python truthiness of the adapter's `text` value (`if ok and text:`):
`None` and the empty string are falsy. -/
def textTruthy : Option String → Bool
  | none => false
  | some t => !(t == "")

/-- Python `err or "No valid response generated."`: `None` and `""` are replaced
by the default message. -/
def errOrDefault : Option String → String
  | none => "No valid response generated."
  | some s => if s == "" then "No valid response generated." else s

/-- Embeds lines 163–177 of `query_llm`: the RAG-context block.  Returns either
the final prompt (`Except.ok`) or the early `LLMResponse` returned when
retrieval raises (`Except.error`).  With `use_rag` and no `db_path` only a
warning is logged and the plain prompt is kept. -/
def apply_rag (rag : String → String → Except String String)
    (use_rag : Bool) (db_path : Option String) (prompt : String) :
    Except LLMResponse String :=
  if use_rag then
    match db_path with
    | none => .ok prompt
    | some path =>
      match rag path prompt with
      | .ok context =>
        .ok ("Use the following context to answer:\n\n" ++ context ++ "\n\nQuestion: " ++ prompt)
      | .error e =>
        .error ⟨"", false, some ("⚠️ RAG Error: Could not retrieve context. Details: " ++ e)⟩
  else .ok prompt

/-- Embeds lines 181–213 of `query_llm`: dispatch on the model name, the
`if ok and text` success check, and the catch-all that converts an uncaught
adapter exception into `HTTPException(500)` (modelled as `Except.error`). -/
def handle_dispatch (adapter : String → String → Except String AdapterResult)
    (model_name prompt : String) : Except String LLMResponse :=
  if model_name == "DeepSeek" || model_name == "Gemini" || model_name == "ChatGPT" then
    match adapter model_name prompt with
    | .error _ => .error "Internal server error."
    | .ok r =>
      if r.ok && textTruthy r.text then
        .ok ⟨r.text.getD "", true, none⟩
      else
        .ok ⟨"", false, some (errOrDefault r.err)⟩
  else
    .ok ⟨"", false, some ("❌ Unknown model: " ++ model_name)⟩

/-- Embeds the `/query_llm` endpoint (`query_llm` of `backend/app.py`):
validation of `api_key`/`prompt`, prompt stripping, the RAG block, and
provider dispatch.  `Except.error` is the raised-`HTTPException` exit. -/
def query_llm (adapter : String → String → Except String AdapterResult)
    (rag : String → String → Except String String)
    (req : LLMRequest) : Except String LLMResponse :=
  if str_strip req.api_key == "" then
    .ok ⟨"", false, some "❌ API key is required."⟩
  else if str_strip req.prompt == "" then
    .ok ⟨"", false, some "❌ Prompt cannot be empty."⟩
  else
    match apply_rag rag req.use_rag req.db_path (str_strip req.prompt) with
    | .error resp => .ok resp
    | .ok prompt => handle_dispatch adapter req.model_name prompt

/-! ## `backend/rag_engine.py` — retrieval (`query_rag`, lines 119–122)

`db.similarity_search(question, k)` is an external Chroma call, modelled as a
parameter `search`; the store contents are modelled as the list of chunk texts
held by the index, with the contract that search results are drawn from the
store. -/

/-- Embeds `query_rag`: join the `page_content` of the returned documents with
blank-line separators. -/
def query_rag (search : String → Nat → List String) (question : String) (k : Nat) : String :=
  String.intercalate "\n\n" (search question k)

/-! ## `backend/rag_engine.py` — ingestion (`process_and_add_files`, lines 46–116)

Per input file the function writes a `NamedTemporaryFile`, loads it with
`PyPDFLoader`/`TextLoader` and splits the result; loader and splitter are
external, so each file carries its loading-plus-splitting outcome as
`load : Except String (List String)` — the raised exception message, or the
list of chunk texts `split_docs` obtained for that file.  `db.add_documents`
may raise; `addOk i` says whether the call for batch `i` succeeds.  The temp
file created for a file is identified by the file's name. -/

/-- One uploaded file handed to `process_and_add_files`: its `.name` and the
outcome of loading and splitting it. -/
structure IFile where
  name : String
  load : Except String (List String)
deriving DecidableEq

/-- Chunks contributed by one file: `split_docs` when loading succeeds, nothing
when the loader raised (the `except` branch skips the file). -/
def chunksOf (f : IFile) : List String :=
  match f.load with
  | .ok split_docs => split_docs
  | .error _ => []

/-- Running total `total_chunks += len(split_docs)` over the file loop. -/
def totalChunks (files : List IFile) : Nat :=
  (files.map (fun f => (chunksOf f).length)).sum

/-- Accumulated `all_docs.extend(split_docs)` over the file loop. -/
def allDocs (files : List IFile) : List String :=
  (files.map chunksOf).flatten

/-- Fuel-driven slicing `all_docs[i:i+batch_size]` of the embedding loop
(`for i in range(0, len(all_docs), batch_size)`). -/
def batchesAux (fuel bs : Nat) (l : List α) : List (List α) :=
  match fuel with
  | 0 =>
    match l with
    | [] => []
    | _ :: _ => [l]
  | fuel+1 =>
    match l with
    | [] => []
    | _ :: _ => l.take bs :: batchesAux fuel bs (l.drop bs)

/-- The successive batches of size `bs` of a list. -/
def batches (bs : Nat) (l : List α) : List (List α) := batchesAux l.length bs l

/-- The `rag_metadata.json` record (the wall-clock `created_at` field is not
modelled). -/
structure Metadata where
  files : List String
  total_chunks : Nat
deriving DecidableEq

/-- Persistent state of one store directory: the chunks held by the Chroma
index and the metadata sidecar, if any. -/
structure StoreState where
  chunks : List String
  metadata : Option Metadata
deriving DecidableEq

/-- Exit taken by `process_and_add_files`: normal return with the success
message, the early `return "No chunks to embed."`, or a propagated exception. -/
inductive IngestOutcome where
  | success (msg : String)
  | noChunks (msg : String)
  | raised (e : String)
deriving DecidableEq

/-- Whether the outcome is the normal-completion return. -/
def IngestOutcome.isSuccess : IngestOutcome → Bool
  | .success _ => true
  | _ => false

/-- Result of the embedding loop of `process_and_add_files`: the progress
emissions `(processed_chunks, total_chunks)` displayed after each batch, the
chunks durably added, and the exception raised by `db.add_documents`, if any. -/
structure BatchRun where
  emissions : List (Nat × Nat)
  added : List String
  raised : Option String
deriving DecidableEq

/-- The batched-embedding loop (lines 79–92): per batch, `db.add_documents`,
`processed_chunks += len(batch)`, then the progress/ETA update — whose divisor
is the `processed_chunks` component of the emitted pair.  A failing add raises
at once; chunks of earlier batches stay added. -/
def runBatches (addOk : Nat → Bool) (total idx processed : Nat) :
    List (List String) → BatchRun
  | [] => ⟨[], [], none⟩
  | b :: bs =>
    if addOk idx then
      let r := runBatches addOk total (idx + 1) (processed + b.length) bs
      ⟨(processed + b.length, total) :: r.emissions, b ++ r.added, r.raised⟩
    else
      ⟨[], [], some "db.add_documents raised"⟩

/-- Result of one `process_and_add_files` run: exit taken, resulting store
state, temp files of this run still on disk afterwards, and the progress
emissions. -/
structure IngestResult where
  outcome : IngestOutcome
  store : StoreState
  leftoverTemps : List String
  emissions : List (Nat × Nat)
deriving DecidableEq

/-- Embeds `process_and_add_files(files, persist_directory)`.  Control flow of
the source: file loop (temp file, load-or-skip, split, accumulate), the
`total_chunks == 0` early return, the batched embedding loop, the metadata
write `{"files": [file.name for file in files], ..., "total_chunks":
total_chunks}`, and the temp-directory sweep that runs only on the
normal-completion path. -/
def process_and_add_files (addOk : Nat → Bool) (files : List IFile)
    (prior : StoreState) : IngestResult :=
  let temps := files.map (fun f => f.name)
  let total_chunks := totalChunks files
  let all_docs := allDocs files
  if total_chunks = 0 then
    ⟨.noChunks "No chunks to embed.", prior, temps, []⟩
  else
    let r := runBatches addOk total_chunks 0 0 (batches 30 all_docs)
    match r.raised with
    | some e => ⟨.raised e, ⟨prior.chunks ++ r.added, prior.metadata⟩, temps, r.emissions⟩
    | none =>
      ⟨.success ("✅ Added " ++ toString total_chunks ++ " chunks to the vector database."),
       ⟨prior.chunks ++ r.added, some ⟨files.map (fun f => f.name), total_chunks⟩⟩,
       [], r.emissions⟩

/-- Names of the members whose loading succeeded — the files "accepted for
embedding" in the words of the specification's Metadata contract (§4.4 step 6),
for comparison with what the code records. -/
def acceptedFileNamesSpec (files : List IFile) : List String :=
  (files.filter (fun f => f.load.isOk)).map (fun f => f.name)

/-! ## Chunker (spec-modelled)

Modelled from the spec: the chunker invoked at line 65 of
`backend/rag_engine.py` is the external
`RecursiveCharacterTextSplitter(chunk_size=1000, chunk_overlap=200)`; its
algorithm is not part of this repository, and §4.2 of the spec leaves the exact
boundary algorithm open subject to the §3 invariants (fixed target size `S`,
consecutive chunks overlapping by exactly `O`, final chunk possibly shorter).
The sliding-window chunker below realizes exactly those invariants: chunk `i`
is the slice starting at `i·(S−O)` of length `S` (shorter at the end). -/

/-- Fuel-driven sliding-window chunker: a document of at most `S` characters is
one chunk; otherwise emit the first `S` characters and continue `S − O`
characters further on. -/
def chunkAux (fuel S O : Nat) (s : List α) : List (List α) :=
  match fuel with
  | 0 => [s]
  | fuel+1 =>
    if s.length ≤ S then [s]
    else if S ≤ O then [s]
    else s.take S :: chunkAux fuel S O (s.drop (S - O))

/-- Chunk a document into size-`S` pieces overlapping by `O`. -/
def chunk (S O : Nat) (s : List α) : List (List α) := chunkAux s.length S O s

/-- The chunk-count formula of the spec, `⌈(L−O)/(S−O)⌉`, as natural-number
arithmetic: `⌈a/b⌉ = (a + b − 1) / b`. -/
def ceilFormula (L S O : Nat) : Nat := (L - O + (S - O) - 1) / (S - O)

/-- Concatenation with the overlapping prefixes removed: the first chunk whole,
every later chunk without its first `O` characters. -/
def joinTail (O : Nat) : List (List α) → List α
  | [] => []
  | c :: cs => c.drop O ++ joinTail O cs

/-- Reassemble a chunked document (first chunk whole, `O`-character overlap
dropped from each subsequent chunk). -/
def joinOverlap (O : Nat) : List (List α) → List α
  | [] => []
  | c :: cs => c ++ joinTail O cs

/-! ## Helper lemmas -/

theorem str_append_ne_empty (s t : String) (h : s.length ≠ 0) : s ++ t ≠ "" := by
  intro he
  have hl := congrArg String.length he
  rw [String.length_append] at hl
  simp at hl
  omega

theorem errOrDefault_ne_empty (o : Option String) : errOrDefault o ≠ "" := by
  cases o with
  | none => decide
  | some s =>
    by_cases hs : s = ""
    · subst hs; decide
    · simp [errOrDefault, hs]

theorem totalChunks_eq_length (files : List IFile) :
    totalChunks files = (allDocs files).length := by
  unfold totalChunks allDocs
  rw [List.length_flatten, List.map_map]
  rfl

theorem batchesAux_flatten (fuel bs : Nat) (l : List α)
    (hf : l.length ≤ fuel) (hbs : 1 ≤ bs) :
    (batchesAux fuel bs l).flatten = l := by
  induction fuel generalizing l with
  | zero =>
    have : l = [] := List.eq_nil_of_length_eq_zero (Nat.le_zero.mp hf)
    subst this
    simp [batchesAux]
  | succ fuel ih =>
    cases l with
    | nil => simp [batchesAux]
    | cons x xs =>
      simp only [batchesAux, List.flatten_cons]
      rw [ih]
      · exact List.take_append_drop bs (x :: xs)
      · simp at hf ⊢
        omega

theorem batches_flatten (bs : Nat) (l : List α) (hbs : 1 ≤ bs) :
    (batches bs l).flatten = l :=
  batchesAux_flatten _ _ _ le_rfl hbs

theorem batchesAux_ne_nil (fuel bs : Nat) (l b : List α)
    (hbs : 1 ≤ bs) (hb : b ∈ batchesAux fuel bs l) : b ≠ [] := by
  induction fuel generalizing l with
  | zero =>
    cases l with
    | nil => simp [batchesAux] at hb
    | cons x xs =>
      simp [batchesAux] at hb
      subst hb
      simp
  | succ fuel ih =>
    cases l with
    | nil => simp [batchesAux] at hb
    | cons x xs =>
      simp only [batchesAux, List.mem_cons] at hb
      cases hb with
      | inl h =>
        subst h
        cases bs with
        | zero => omega
        | succ n => simp
      | inr h => exact ih _ h

theorem runBatches_raised_none (addOk : Nat → Bool) (total : Nat)
    (bs : List (List String)) (idx processed : Nat)
    (h : (runBatches addOk total idx processed bs).raised = none) :
    (runBatches addOk total idx processed bs).added = bs.flatten ∧
    (runBatches addOk total idx processed bs).emissions.length = bs.length := by
  induction bs generalizing idx processed with
  | nil => exact ⟨rfl, rfl⟩
  | cons b bs ih =>
    by_cases hok : addOk idx = true
    · simp only [runBatches, hok, if_true] at h ⊢
      obtain ⟨h1, h2⟩ := ih (idx + 1) (processed + b.length) h
      simp [h1, h2]
    · simp [runBatches, hok] at h

theorem runBatches_all_ok_raised (addOk : Nat → Bool) (total : Nat)
    (hall : ∀ i, addOk i = true) (bs : List (List String)) (idx processed : Nat) :
    (runBatches addOk total idx processed bs).raised = none := by
  induction bs generalizing idx processed with
  | nil => rfl
  | cons b bs ih => simp [runBatches, hall idx, ih]

theorem runBatches_emissions_lower (addOk : Nat → Bool) (total : Nat)
    (bs : List (List String)) (idx processed : Nat)
    (hne : ∀ b ∈ bs, b ≠ []) :
    ∀ pt ∈ (runBatches addOk total idx processed bs).emissions, processed + 1 ≤ pt.1 := by
  induction bs generalizing idx processed with
  | nil => intro pt hpt; simp [runBatches] at hpt
  | cons b bs ih =>
    intro pt hpt
    by_cases hok : addOk idx = true
    · simp only [runBatches, hok, if_true, List.mem_cons] at hpt
      cases hpt with
      | inl h =>
        subst h
        have : 1 ≤ b.length := List.length_pos.mpr (hne b (List.mem_cons_self b bs))
        simp
        omega
      | inr h =>
        have := ih (idx + 1) (processed + b.length)
          (fun x hx => hne x (List.mem_cons_of_mem b hx)) pt h
        omega
    · simp [runBatches, hok] at hpt

/-! ## Claim C4 — `parse_api_error` classification -/

/-- C4: for every provider and error, `parse_api_error` returns the
invalid-API-key message whenever the lowered error text mentions "401",
"invalid api key" or "authentication"; the quota message whenever it mentions
"quota" or "limit" and none of the auth keywords; and the generic provider
message otherwise — uniformly in the provider. -/
theorem C4_parse_api_error_classification (provider error : String) :
    (mentionsAuth (str_lower error) = true →
      parse_api_error provider error =
        "❌ Invalid API key. Please check your " ++ provider ++ " API key.") ∧
    (mentionsAuth (str_lower error) = false → mentionsQuota (str_lower error) = true →
      parse_api_error provider error =
        "⚠️ " ++ provider ++ " API quota exceeded. Please check your account limits.") ∧
    (mentionsAuth (str_lower error) = false → mentionsQuota (str_lower error) = false →
      parse_api_error provider error = "❌ " ++ provider ++ " API error: " ++ error) := by
  refine ⟨fun h1 => ?_, fun h1 h2 => ?_, fun h1 h2 => ?_⟩ <;>
    simp [parse_api_error, h1]
  · simp [h2]
  · simp [h2]

/-- Witness for C4: one concrete error per classification branch. -/
theorem C4_parse_api_error_classification_witness :
    parse_api_error "OpenAI" "Error 401 Unauthorized" =
      "❌ Invalid API key. Please check your OpenAI API key." ∧
    parse_api_error "Gemini" "Quota exceeded for project" =
      "⚠️ Gemini API quota exceeded. Please check your account limits." ∧
    parse_api_error "DeepSeek" "connection reset" =
      "❌ DeepSeek API error: connection reset" :=
  ⟨(C4_parse_api_error_classification "OpenAI" "Error 401 Unauthorized").1 (by decide),
   (C4_parse_api_error_classification "Gemini" "Quota exceeded for project").2.1
     (by decide) (by decide),
   (C4_parse_api_error_classification "DeepSeek" "connection reset").2.2
     (by decide) (by decide)⟩

/-! ## Claim C7 — `query_rag` joins results, empty store gives `""` -/

/-- C7: `query_rag` returns the retrieved chunks' texts joined with blank-line
separators in the order the index returns them, and returns the empty string —
not an error — when the store is empty (search results are drawn from the
store's chunks). -/
theorem C7_query_rag_join_empty_store (store : List String)
    (search : String → Nat → List String) (question : String) (k : Nat)
    (hsub : ∀ d ∈ search question k, d ∈ store) :
    query_rag search question k = String.intercalate "\n\n" (search question k) ∧
    (store = [] → query_rag search question k = "") := by
  refine ⟨rfl, fun hstore => ?_⟩
  subst hstore
  have hnil : search question k = [] := by
    cases h : search question k with
    | nil => rfl
    | cons x xs =>
      exact absurd (hsub x (by rw [h]; exact List.mem_cons_self x xs)) (List.not_mem_nil x)
  rw [query_rag, hnil]
  rfl

/-- Witness for C7: retrieval against an empty store yields the empty string. -/
theorem C7_query_rag_join_empty_store_witness :
    query_rag (fun _ _ => []) "anything" 3 =
      String.intercalate "\n\n" ((fun _ _ => ([] : List String)) "anything" 3) ∧
    (([] : List String) = [] → query_rag (fun _ _ => []) "anything" 3 = "") :=
  C7_query_rag_join_empty_store [] (fun _ _ => []) "anything" 3 (by simp)

theorem apply_rag_error_shape (rag : String → String → Except String String)
    (u : Bool) (d : Option String) (p : String) (r : LLMResponse)
    (h : apply_rag rag u d p = .error r) :
    r.response = "" ∧ r.success = false ∧ r.error_message.getD "" ≠ "" := by
  cases u with
  | false => simp [apply_rag] at h
  | true =>
    cases d with
    | none => simp [apply_rag] at h
    | some path =>
      cases hrag : rag path p with
      | ok context => simp [apply_rag, hrag] at h
      | error e =>
        simp only [apply_rag, hrag] at h
        have hr : r = ⟨"", false,
            some ("⚠️ RAG Error: Could not retrieve context. Details: " ++ e)⟩ := by
          cases h
          rfl
        subst hr
        exact ⟨rfl, rfl, str_append_ne_empty _ _ (by decide)⟩

theorem handle_dispatch_ok_shape (adapter : String → String → Except String AdapterResult)
    (model_name prompt : String) (resp : LLMResponse)
    (h : handle_dispatch adapter model_name prompt = .ok resp) :
    (resp.success = false → resp.response = "" ∧ resp.error_message.getD "" ≠ "") ∧
    (resp.success = true → resp.error_message = none) := by
  by_cases hname :
      (model_name == "DeepSeek" || model_name == "Gemini" || model_name == "ChatGPT") = true
  · simp only [handle_dispatch, hname, if_true] at h
    cases hadapter : adapter model_name prompt with
    | error e => simp [hadapter] at h
    | ok r =>
      simp only [hadapter] at h
      by_cases hok : (r.ok && textTruthy r.text) = true
      · simp only [hok, if_true] at h
        have hr : resp = ⟨r.text.getD "", true, none⟩ := by cases h; rfl
        subst hr
        exact ⟨fun hfalse => by simp at hfalse, fun _ => rfl⟩
      · simp only [hok, if_false, Bool.false_eq_true] at h
        have hr : resp = ⟨"", false, some (errOrDefault r.err)⟩ := by
          simp at hok
          simp [hok] at h
          cases h
          rfl
        subst hr
        exact ⟨fun _ => ⟨rfl, by simpa using errOrDefault_ne_empty r.err⟩,
          fun htrue => by simp at htrue⟩
  · simp only [handle_dispatch, hname, if_false, Bool.false_eq_true] at h
    have hr : resp = ⟨"", false, some ("❌ Unknown model: " ++ model_name)⟩ := by
      simp at hname
      simp [hname] at h
      cases h
      rfl
    subst hr
    exact ⟨fun _ => ⟨rfl, by simpa using str_append_ne_empty "❌ Unknown model: " model_name (by decide)⟩,
      fun htrue => by simp at htrue⟩

/-! ## Claim C10 — response invariant of `/query_llm` -/

/-- C10: every response the endpoint returns without raising satisfies: on
failure the `response` field is empty and `error_message` is a non-empty
string; on success `error_message` is `None` — across the validation,
RAG-failure, unknown-model, provider-failure and provider-success paths. -/
theorem C10_query_llm_response_invariant
    (adapter : String → String → Except String AdapterResult)
    (rag : String → String → Except String String)
    (req : LLMRequest) (resp : LLMResponse)
    (h : query_llm adapter rag req = .ok resp) :
    (resp.success = false → resp.response = "" ∧ resp.error_message.getD "" ≠ "") ∧
    (resp.success = true → resp.error_message = none) := by
  by_cases hk : (str_strip req.api_key == "") = true
  · simp only [query_llm, hk, if_true] at h
    have hr : resp = ⟨"", false, some "❌ API key is required."⟩ := by cases h; rfl
    subst hr
    exact ⟨fun _ => ⟨rfl, by decide⟩, fun htrue => by simp at htrue⟩
  · by_cases hp : (str_strip req.prompt == "") = true
    · simp only [query_llm, hk, hp, if_true, Bool.false_eq_true, if_false] at h
      have hr : resp = ⟨"", false, some "❌ Prompt cannot be empty."⟩ := by
        simp at hk
        simp [hk] at h
        cases h
        rfl
      subst hr
      exact ⟨fun _ => ⟨rfl, by decide⟩, fun htrue => by simp at htrue⟩
    · simp only [query_llm] at h
      rw [if_neg hk, if_neg hp] at h
      cases hrag : apply_rag rag req.use_rag req.db_path (str_strip req.prompt) with
      | error r =>
        simp only [hrag] at h
        have hr : resp = r := by cases h; rfl
        subst hr
        obtain ⟨h1, h2, h3⟩ := apply_rag_error_shape rag _ _ _ _ hrag
        exact ⟨fun _ => ⟨h1, h3⟩, fun htrue => by rw [htrue] at h2; simp at h2⟩
      | ok prompt =>
        simp only [hrag] at h
        exact handle_dispatch_ok_shape adapter req.model_name prompt resp h

/-- Witness for C10: the validation path (empty API key) produces a failure
response with an empty `response` field and a non-empty error message. -/
theorem C10_query_llm_response_invariant_witness :
    ((⟨"", false, some "❌ API key is required."⟩ : LLMResponse).response = "" ∧
      (⟨"", false, some "❌ API key is required."⟩ : LLMResponse).error_message.getD "" ≠ "") :=
  (C10_query_llm_response_invariant
      (fun _ _ => Except.ok ⟨some "hello", true, none⟩) (fun _ _ => Except.ok "")
      ⟨"Gemini", "", "hi", false, none⟩ ⟨"", false, some "❌ API key is required."⟩
      (by decide)).1 rfl

/-! ## Claim C6 — RAG prompt construction in `/query_llm` -/

/-- C6: past validation, with `use_rag` and a store path the prompt handed to
the provider adapter is exactly
`"Use the following context to answer:\n\n<context>\n\nQuestion: <prompt>"`
(where `<prompt>` is the request's prompt as validated, i.e. stripped of
surrounding whitespace); with `use_rag` but no store path the stripped prompt
is used unchanged and the request still proceeds to provider dispatch. -/
theorem C6_rag_prompt_construction
    (adapter : String → String → Except String AdapterResult)
    (rag : String → String → Except String String) (req : LLMRequest)
    (hk : str_strip req.api_key ≠ "") (hp : str_strip req.prompt ≠ "")
    (hr : req.use_rag = true) :
    (∀ path context, req.db_path = some path →
      rag path (str_strip req.prompt) = .ok context →
      query_llm adapter rag req =
        handle_dispatch adapter req.model_name
          ("Use the following context to answer:\n\n" ++ context ++
            "\n\nQuestion: " ++ str_strip req.prompt)) ∧
    (req.db_path = none →
      query_llm adapter rag req = handle_dispatch adapter req.model_name (str_strip req.prompt)) := by
  constructor
  · intro path context hpath hragok
    simp [query_llm, apply_rag, hk, hp, hr, hpath, hragok]
  · intro hpath
    simp [query_llm, apply_rag, hk, hp, hr, hpath]

/-- Witness for C6: a concrete RAG request whose adapter receives the rewritten
prompt. -/
theorem C6_rag_prompt_construction_witness :
    query_llm (fun _ _ => Except.ok ⟨some "ans", true, none⟩) (fun _ _ => Except.ok "CTX")
      ⟨"Gemini", "k", "q", true, some "/db"⟩ =
    handle_dispatch (fun _ _ => Except.ok ⟨some "ans", true, none⟩) "Gemini"
      ("Use the following context to answer:\n\n" ++ "CTX" ++
        "\n\nQuestion: " ++ str_strip "q") :=
  (C6_rag_prompt_construction (fun _ _ => Except.ok ⟨some "ans", true, none⟩)
    (fun _ _ => Except.ok "CTX") ⟨"Gemini", "k", "q", true, some "/db"⟩
    (by decide) (by decide) rfl).1 "/db" "CTX" rfl rfl

/-! ## Claim C8 — empty provider output is returned as failure -/

/-- C8: an adapter call that succeeds (`ok = true`) but yields empty output
text is returned by the endpoint as `success = false` with `response = ""` and
a non-empty error message, never as a success carrying a blank response. -/
theorem C8_empty_success_is_failure
    (adapter : String → String → Except String AdapterResult)
    (rag : String → String → Except String String) (req : LLMRequest)
    (p : String) (err : Option String)
    (hk : str_strip req.api_key ≠ "") (hp : str_strip req.prompt ≠ "")
    (hrag : apply_rag rag req.use_rag req.db_path (str_strip req.prompt) = .ok p)
    (hname : (req.model_name == "DeepSeek" || req.model_name == "Gemini" ||
      req.model_name == "ChatGPT") = true)
    (hadapter : adapter req.model_name p = .ok ⟨some "", true, err⟩) :
    query_llm adapter rag req = .ok ⟨"", false, some (errOrDefault err)⟩ ∧
    errOrDefault err ≠ "" := by
  refine ⟨?_, errOrDefault_ne_empty err⟩
  simp [query_llm, hk, hp, hrag, handle_dispatch, hname, hadapter, textTruthy]

/-- Witness for C8: a Gemini-style adapter returning `("", True, None)` is
surfaced as a failure with the default error message. -/
theorem C8_empty_success_is_failure_witness :
    query_llm (fun _ _ => Except.ok ⟨some "", true, none⟩) (fun _ _ => Except.ok "")
      ⟨"Gemini", "k", "q", false, none⟩ =
      .ok ⟨"", false, some (errOrDefault none)⟩ ∧
    errOrDefault (none : Option String) ≠ "" :=
  C8_empty_success_is_failure (fun _ _ => Except.ok ⟨some "", true, none⟩)
    (fun _ _ => Except.ok "") ⟨"Gemini", "k", "q", false, none⟩ (str_strip "q") none
    (by decide) (by decide) rfl (by decide) rfl

/-! ## Claim C3 — zero chunks: warning, no index mutation -/

/-- C3: when chunking the successfully loaded documents yields zero chunks,
`process_and_add_files` exits through the non-fatal "No chunks to embed."
return: nothing is added to the index, no metadata is written, the store's
prior state is unchanged, and no progress is emitted. -/
theorem C3_zero_chunks_no_mutation (addOk : Nat → Bool) (files : List IFile)
    (prior : StoreState) (h : totalChunks files = 0) :
    process_and_add_files addOk files prior =
      ⟨.noChunks "No chunks to embed.", prior, files.map (fun f => f.name), []⟩ := by
  simp [process_and_add_files, h]

/-- Witness for C3: a file that loads but produces no chunks leaves a
previously populated store untouched. -/
theorem C3_zero_chunks_no_mutation_witness :
    process_and_add_files (fun _ => true) [⟨"empty.txt", Except.ok []⟩]
        ⟨["old chunk"], some ⟨["old.txt"], 1⟩⟩ =
      ⟨.noChunks "No chunks to embed.", ⟨["old chunk"], some ⟨["old.txt"], 1⟩⟩,
        ["empty.txt"], []⟩ :=
  C3_zero_chunks_no_mutation (fun _ => true) [⟨"empty.txt", Except.ok []⟩]
    ⟨["old chunk"], some ⟨["old.txt"], 1⟩⟩ (by decide)

/-! ## Claim C1 — metadata written on success -/

/-- Counterexample to C1 as stated: a run with one good file (1 chunk) and one
file whose loading fails completes successfully, yet the metadata `files`
field lists both filenames — not only the accepted one. -/
theorem C1_counterexample_failed_file_listed :
    (process_and_add_files (fun _ => true)
        [⟨"good.txt", Except.ok ["chunk one"]⟩, ⟨"bad.txt", Except.error "load failed"⟩]
        ⟨[], none⟩).outcome.isSuccess = true ∧
    (process_and_add_files (fun _ => true)
        [⟨"good.txt", Except.ok ["chunk one"]⟩, ⟨"bad.txt", Except.error "load failed"⟩]
        ⟨[], none⟩).store.metadata = some ⟨["good.txt", "bad.txt"], 1⟩ ∧
    acceptedFileNamesSpec
        [⟨"good.txt", Except.ok ["chunk one"]⟩, ⟨"bad.txt", Except.error "load failed"⟩] =
      ["good.txt"] ∧
    (process_and_add_files (fun _ => true)
        [⟨"good.txt", Except.ok ["chunk one"]⟩, ⟨"bad.txt", Except.error "load failed"⟩]
        ⟨[], none⟩).store.metadata ≠
      some ⟨acceptedFileNamesSpec
        [⟨"good.txt", Except.ok ["chunk one"]⟩, ⟨"bad.txt", Except.error "load failed"⟩], 1⟩ := by
  decide

/-- C1 (amended): after a successful run, the metadata's `total_chunks` equals
the number of chunks actually added to the index in that run, and `files`
lists the names of every file in the input batch — including files whose
loading failed (the code records `[file.name for file in files]` and performs
no zip expansion itself). -/
theorem C1_amended_metadata_consistency (addOk : Nat → Bool) (files : List IFile)
    (prior : StoreState)
    (h : (process_and_add_files addOk files prior).outcome.isSuccess = true) :
    (process_and_add_files addOk files prior).store.metadata =
      some ⟨files.map (fun f => f.name), totalChunks files⟩ ∧
    (process_and_add_files addOk files prior).store.chunks.length =
      prior.chunks.length + totalChunks files := by
  by_cases h0 : totalChunks files = 0
  · simp [process_and_add_files, h0, IngestOutcome.isSuccess] at h
  · cases hraised : (runBatches addOk (totalChunks files) 0 0
        (batches 30 (allDocs files))).raised with
    | some e => simp [process_and_add_files, h0, hraised, IngestOutcome.isSuccess] at h
    | none =>
      obtain ⟨hadd, _⟩ := runBatches_raised_none addOk (totalChunks files) _ 0 0 hraised
      refine ⟨by simp [process_and_add_files, h0, hraised], ?_⟩
      simp only [process_and_add_files, h0, if_false, hraised]
      simp [hadd, batches_flatten 30 (allDocs files) (by omega), ← totalChunks_eq_length]

/-- Witness for C1 (amended): one good file with two chunks added to a
one-chunk store. -/
theorem C1_amended_metadata_consistency_witness :
    (process_and_add_files (fun _ => true) [⟨"good.txt", Except.ok ["c1", "c2"]⟩]
        ⟨["p"], none⟩).store.metadata = some ⟨["good.txt"], 2⟩ ∧
    (process_and_add_files (fun _ => true) [⟨"good.txt", Except.ok ["c1", "c2"]⟩]
        ⟨["p"], none⟩).store.chunks.length = 3 :=
  C1_amended_metadata_consistency (fun _ => true) [⟨"good.txt", Except.ok ["c1", "c2"]⟩]
    ⟨["p"], none⟩ (by decide)

/-! ## Claim C2 — temp-file cleanup -/

/-- Counterexample to C2 as stated: the zero-chunk early return and the
exception exit both leave the run's temporary files on disk — only the
normal-completion path sweeps them. -/
theorem C2_counterexample_temp_left_behind :
    (process_and_add_files (fun _ => true) [⟨"a.txt", Except.ok []⟩] ⟨[], none⟩).leftoverTemps =
      ["a.txt"] ∧
    (process_and_add_files (fun _ => true) [⟨"a.txt", Except.ok []⟩] ⟨[], none⟩).leftoverTemps ≠
      [] ∧
    (process_and_add_files (fun _ => false) [⟨"b.txt", Except.ok ["c"]⟩] ⟨[], none⟩).outcome =
      .raised "db.add_documents raised" ∧
    (process_and_add_files (fun _ => false) [⟨"b.txt", Except.ok ["c"]⟩] ⟨[], none⟩).leftoverTemps =
      ["b.txt"] := by
  decide

/-- C2 (amended): the temporary files created for loading are removed exactly
when the run completes normally; the zero-chunk early return and the
exception exit leave every temp file of the run in place. -/
theorem C2_amended_temp_cleanup (addOk : Nat → Bool) (files : List IFile)
    (prior : StoreState) :
    (process_and_add_files addOk files prior).leftoverTemps =
      if (process_and_add_files addOk files prior).outcome.isSuccess = true then []
      else files.map (fun f => f.name) := by
  by_cases h0 : totalChunks files = 0
  · simp [process_and_add_files, h0, IngestOutcome.isSuccess]
  · cases hraised : (runBatches addOk (totalChunks files) 0 0
        (batches 30 (allDocs files))).raised with
    | some e => simp [process_and_add_files, h0, hraised, IngestOutcome.isSuccess]
    | none => simp [process_and_add_files, h0, hraised, IngestOutcome.isSuccess]

/-! ## Claim C9 — progress emissions and the ETA divisor -/

/-- C9: every progress update emitted by the embedding loop carries
`processed_chunks ≥ 1` — the ETA division `elapsed / processed_chunks` never
divides by zero, because updates happen only after a non-empty batch and the
loop runs only when the chunk total is positive — and, when no add call
raises, one update is emitted per batch. -/
theorem C9_progress_divisor_positive (addOk : Nat → Bool) (files : List IFile)
    (prior : StoreState) :
    (∀ pt ∈ (process_and_add_files addOk files prior).emissions, 1 ≤ pt.1) ∧
    ((∀ i, addOk i = true) →
      (process_and_add_files addOk files prior).emissions.length =
        (batches 30 (allDocs files)).length) := by
  constructor
  · intro pt hpt
    by_cases h0 : totalChunks files = 0
    · simp [process_and_add_files, h0] at hpt
    · have hne : ∀ b ∈ batches 30 (allDocs files), b ≠ [] :=
        fun b hb => batchesAux_ne_nil _ 30 _ b (by omega) hb
      cases hraised : (runBatches addOk (totalChunks files) 0 0
          (batches 30 (allDocs files))).raised with
      | some e =>
        simp only [process_and_add_files, h0, if_false, hraised] at hpt
        exact runBatches_emissions_lower addOk (totalChunks files) _ 0 0 hne pt hpt
      | none =>
        simp only [process_and_add_files, h0, if_false, hraised] at hpt
        exact runBatches_emissions_lower addOk (totalChunks files) _ 0 0 hne pt hpt
  · intro hall
    by_cases h0 : totalChunks files = 0
    · have hdocs : allDocs files = [] :=
        List.eq_nil_of_length_eq_zero (by rw [← totalChunks_eq_length]; exact h0)
      simp [process_and_add_files, h0, hdocs, batches, batchesAux]
    · have hraised := runBatches_all_ok_raised addOk (totalChunks files) hall
        (batches 30 (allDocs files)) 0 0
      obtain ⟨_, hlen⟩ := runBatches_raised_none addOk (totalChunks files) _ 0 0 hraised
      simp [process_and_add_files, h0, hraised, hlen]

/-- Witness for C9: a two-chunk file yields the single emission `(2, 2)`, with
a positive divisor and one emission for its one batch. -/
theorem C9_progress_divisor_positive_witness :
    1 ≤ ((2, 2) : Nat × Nat).1 ∧
    (process_and_add_files (fun _ => true) [⟨"a.txt", Except.ok ["c1", "c2"]⟩]
        ⟨[], none⟩).emissions.length =
      (batches 30 (allDocs [⟨"a.txt", Except.ok ["c1", "c2"]⟩])).length :=
  ⟨(C9_progress_divisor_positive (fun _ => true) [⟨"a.txt", Except.ok ["c1", "c2"]⟩]
      ⟨[], none⟩).1 (2, 2) (by decide),
   (C9_progress_divisor_positive (fun _ => true) [⟨"a.txt", Except.ok ["c1", "c2"]⟩]
      ⟨[], none⟩).2 (fun _ => rfl)⟩

/-! ## Chunker lemmas and Claim C5 -/

theorem chunkAux_head (fuel S O : Nat) (s : List α) :
    ∃ c cs, chunkAux fuel S O s = c :: cs ∧ (c = s ∨ c = s.take S) := by
  cases fuel with
  | zero => exact ⟨s, [], rfl, Or.inl rfl⟩
  | succ fuel =>
    simp only [chunkAux]
    by_cases h1 : s.length ≤ S
    · simp only [h1, if_true]
      exact ⟨s, [], rfl, Or.inl rfl⟩
    · simp only [h1, if_false]
      by_cases h2 : S ≤ O
      · simp only [h2, if_true]
        exact ⟨s, [], rfl, Or.inl rfl⟩
      · simp only [h2, if_false]
        exact ⟨s.take S, _, rfl, Or.inr rfl⟩

theorem chunkAux_length_eq (fuel S O : Nat) (s : List α)
    (hSO : O < S) (hL : O < s.length) (hf : s.length ≤ fuel) :
    (chunkAux fuel S O s).length = ceilFormula s.length S O := by
  induction fuel generalizing s with
  | zero => omega
  | succ fuel ih =>
    simp only [chunkAux]
    by_cases h1 : s.length ≤ S
    · simp only [h1, if_true, List.length_singleton]
      unfold ceilFormula
      exact (Nat.div_eq_of_lt_le (by omega) (by omega)).symm
    · simp only [h1, if_false]
      have h2 : ¬ S ≤ O := by omega
      simp only [h2, if_false, List.length_cons]
      rw [ih (s.drop (S - O)) (by simp [List.length_drop]; omega)
        (by simp [List.length_drop]; omega)]
      unfold ceilFormula
      rw [List.length_drop]
      have hk : 0 < S - O := by omega
      have heq : s.length - O + (S - O) - 1 = (s.length - (S - O) - O + (S - O) - 1) + (S - O) := by
        omega
      rw [heq, Nat.add_div_right _ hk]

theorem chunkAux_joinOverlap (fuel S O : Nat) (s : List α)
    (hSO : O < S) (hf : s.length ≤ fuel) :
    joinOverlap O (chunkAux fuel S O s) = s := by
  induction fuel generalizing s with
  | zero => simp [chunkAux, joinOverlap, joinTail]
  | succ fuel ih =>
    simp only [chunkAux]
    by_cases h1 : s.length ≤ S
    · simp [h1, joinOverlap, joinTail]
    · have h2 : ¬ S ≤ O := by omega
      simp only [h1, h2, if_false]
      have hflen : (s.drop (S - O)).length ≤ fuel := by
        simp only [List.length_drop]
        omega
      have hrec := ih (s.drop (S - O)) hflen
      obtain ⟨c, cs, heq, hc⟩ := chunkAux_head fuel S O (s.drop (S - O))
      rw [heq] at hrec ⊢
      simp only [joinOverlap] at hrec ⊢
      simp only [joinTail]
      have hclen : O ≤ c.length := by
        cases hc with
        | inl h => subst h; simp [List.length_drop]; omega
        | inr h => subst h; simp [List.length_take, List.length_drop]; omega
      calc s.take S ++ (c.drop O ++ joinTail O cs)
          = s.take S ++ (c ++ joinTail O cs).drop O := by
            rw [List.drop_append_eq_append_drop, Nat.sub_eq_zero_of_le hclen, List.drop_zero]
        _ = s.take S ++ (s.drop (S - O)).drop O := by rw [hrec]
        _ = s.take S ++ s.drop S := by
            have hS : S - O + O = S := by omega
            rw [List.drop_drop, hS]
        _ = s := List.take_append_drop S s

/-- Counterexample to C5 as stated: a one-character document (length `L = 1 ≤
O = 200`) is chunked into one chunk, but the formula `⌈(L−O)/(S−O)⌉` gives 0
(both in truncated natural-number arithmetic and over the rationals, where
`⌈−199/800⌉ = 0`). -/
theorem C5_counterexample_short_document :
    (chunk 1000 200 ['a']).length = 1 ∧
    ceilFormula (['a'] : List Char).length 1000 200 = 0 ∧
    (chunk 1000 200 ['a']).length ≠ ceilFormula (['a'] : List Char).length 1000 200 := by
  decide

/-- C5 (amended): for a document of length `L > O` chunked with size `S = 1000`
and overlap `O = 200`, the chunker produces `⌈(L−O)/(S−O)⌉` chunks (a shorter
non-empty document yields one chunk), and concatenating the chunks with the
overlapping 200-character prefixes removed reconstructs the document exactly. -/
theorem C5_amended_chunk_count_reconstruction (s : List Char) (h : 200 < s.length) :
    (chunk 1000 200 s).length = ceilFormula s.length 1000 200 ∧
    joinOverlap 200 (chunk 1000 200 s) = s :=
  ⟨chunkAux_length_eq s.length 1000 200 s (by omega) h le_rfl,
   chunkAux_joinOverlap s.length 1000 200 s (by omega) le_rfl⟩

/-- Witness for C5 (amended): a 201-character document gives
`⌈(201−200)/800⌉ = 1` chunk and reconstructs exactly. -/
theorem C5_amended_chunk_count_reconstruction_witness :
    (chunk 1000 200 (List.replicate 201 'a')).length =
      ceilFormula (List.replicate 201 'a').length 1000 200 ∧
    joinOverlap 200 (chunk 1000 200 (List.replicate 201 'a')) = List.replicate 201 'a' :=
  C5_amended_chunk_count_reconstruction (List.replicate 201 'a')
    (by rw [List.length_replicate]; omega)
